import Mathlib

/-!
Shallow embedding of the physics-driven destruction and scoring core of the
gray-balls artillery game, translated from the JavaScript sources:

* `SeededRandom`            (src/unnamed/part_001)
* `Building`                (src/unnamed/part_003)
* `Target`                  (src/src/objects/Target.js)
* `PhysicsWorld` collisions (src/src/PhysicsWorld.js)
* `TrajectoryPreview`       (src/src/TrajectoryPreview.js)
* `Projectile`              (src/unnamed/part_004)
* `Level` assembly          (src/src/Level.js)
* `Game.calculateFinalScore`(src/src/Game.js)
* `SaveSystem`              (src/unnamed/part_002)

JavaScript numbers are modelled by `ℚ` (and `ℝ` where the code calls
`Math.cos`/`Math.sin`/vector length); the value `Infinity`, which the code
stores in `maxHitPoints` of indestructible buildings and in the initial
`bestShots` field, is modelled by the type `JsNum` below.  Float rounding is
ignored throughout.
-/

namespace GrayBalls

/-- A JavaScript number restricted to the values that occur in the health /
best-shots fields: either `Infinity` or a finite value. -/
inductive JsNum where
  | inf : JsNum
  | fin : ℚ → JsNum
deriving DecidableEq

/-- JS subtraction `x - d` where `x` may be `Infinity` and `d` is finite:
`Infinity - d === Infinity`. -/
def JsNum.sub : JsNum → ℚ → JsNum
  | JsNum.inf, _ => JsNum.inf
  | JsNum.fin a, d => JsNum.fin (a - d)

/-- JS comparison `x <= 0` where `x` may be `Infinity`. -/
def JsNum.leZero : JsNum → Bool
  | JsNum.inf => false
  | JsNum.fin a => decide (a ≤ 0)

/-- JS remainder `a % b` for a positive modulus `b`: the result carries the
sign of the dividend `a` (truncated division), unlike Lean's `%` on `ℤ`. -/
def jsRem (a b : ℤ) : ℤ := if a < 0 then -((-a) % b) else a % b

/-- JS `Math.round`: round half toward positive infinity. -/
def jsRound (q : ℚ) : ℤ := ⌊q + 1/2⌋

/-- Whether `pat` occurs at the very start of `s` (on character lists). -/
def charsLeading : List Char → List Char → Bool
  | _, [] => true
  | [], _ :: _ => false
  | c :: cs, p :: ps => c == p && charsLeading cs ps

/-- Whether `pat` occurs anywhere inside `s` (on character lists). -/
def charsHasSub : List Char → List Char → Bool
  | [], pat => pat.isEmpty
  | c :: cs, pat => charsLeading (c :: cs) pat || charsHasSub cs pat

/-- JS `String.prototype.includes(pat)`: substring occurrence. -/
def strIncludes (s pat : String) : Bool := charsHasSub s.data pat.data

/-! ## SeededRandom (src/unnamed/part_001, lines 143-185)

```js
constructor(seed = 1) {
    this.seed = seed % 2147483647;
    if (this.seed <= 0) this.seed += 2147483646;
    ...
}
next() {
    this.seed = (this.seed * 16807) % 2147483647;
    return (this.seed - 1) / 2147483646;
}
```
-/

/-- The seed normalization performed by the `SeededRandom` constructor. -/
def seededRandomInit (seed : ℤ) : ℤ :=
  let s := jsRem seed 2147483647
  if s ≤ 0 then s + 2147483646 else s

/-- The state update of `SeededRandom.next()`. -/
def lcgNext (s : ℤ) : ℤ := jsRem (s * 16807) 2147483647

/-- The value returned by `SeededRandom.next()`, computed from the updated
state. -/
def lcgOut (s : ℤ) : ℚ := ((s : ℚ) - 1) / 2147483646

/-- The method `next()` as a state transformer: returned value together with the new
state. -/
def drawNext (s : ℤ) : ℚ × ℤ := (lcgOut (lcgNext s), lcgNext s)

/-- The method `SeededRandom.pick(array)`: `array[Math.floor(this.next() * array.length)]`. -/
def drawPick (s : ℤ) (xs : List String) : String × ℤ :=
  let d := drawNext s
  (xs.getD (⌊d.1 * xs.length⌋).toNat ("undefined"), d.2)

/-- Iterate `n` successive `next()` state updates. -/
def lcgAdvance : ℕ → ℤ → ℤ
  | 0, s => s
  | Nat.succ k, s => lcgAdvance k (lcgNext s)

/-! ## Building (src/unnamed/part_003) -/

/-- Observable state of a `Building`: its stat fields plus the destruction
flag, scene membership and physics-body registration. -/
structure Building where
  buildingType : String
  isIndestructible : Bool
  material : String
  maxHitPoints : JsNum
  hitPoints : JsNum
  damageThreshold : ℚ
  scoreValue : ℤ
  isDestroyed : Bool
  inScene : Bool
  bodyInWorld : Bool
  bodyMass : ℚ
  bodyStatic : Bool
deriving DecidableEq

/-- The method `Building.getMaterialType` (part_003, lines 29-46). -/
def buildingMaterialType (bt : String) : String :=
  if strIncludes bt ("indestructible") then ("indestructible")
  else if bt = "platform" then ("wood")
  else if bt = "tower" then ("stone")
  else if bt = "wall" then ("stone")
  else if bt = "castle" then ("stone")
  else ("wood")

/-- The lookup `baseHP[material] || 100` in `Building.getMaxHitPoints`. -/
def buildingBaseHP (material : String) : ℚ :=
  if material = "wood" then 100
  else if material = "stone" then 300
  else 100

/-- The lookup `typeMultiplier[buildingType] || 1.0` in `Building.getMaxHitPoints`. -/
def buildingHPMultiplier (bt : String) : ℚ :=
  if bt = "platform" then 4/5
  else if bt = "wall" then 1
  else if bt = "tower" then 3/2
  else if bt = "castle" then 3
  else 1

/-- The method `Building.getMaxHitPoints` (part_003, lines 48-66). -/
def buildingMaxHitPoints (material bt : String) : ℚ :=
  buildingBaseHP material * buildingHPMultiplier bt

/-- The lookup `materialScore[material] || 10` in `Building.calculateScoreValue`. -/
def buildingMaterialScore (material : String) : ℚ :=
  if material = "wood" then 10
  else if material = "stone" then 25
  else if material = "indestructible" then 0
  else 10

/-- The lookup `typeMultiplier[buildingType] || 1.0` in `Building.calculateScoreValue`. -/
def buildingScoreMultiplier (bt : String) : ℚ :=
  if bt = "platform" then 1/2
  else if bt = "wall" then 1
  else if bt = "tower" then 2
  else if bt = "castle" then 5
  else 1

/-- The method `Building.calculateScoreValue` (part_003, lines 68-91). -/
def buildingScoreValue (ind : Bool) (material bt : String) : ℤ :=
  if ind then 0
  else jsRound (buildingMaterialScore material * buildingScoreMultiplier bt)

/-- Physics-body mass chosen by `Building.create` / `createIndestructible`:
indestructible variants are static with mass 0; a castle gets mass 50;
platforms and walls mass 10; other types mass 20. -/
def buildingBodyMass (ind : Bool) (bt : String) : ℚ :=
  if ind then 0
  else if bt = "castle" then 50
  else if bt = "platform" ∨ bt = "wall" then 10
  else 20

/-- The `Building` constructor (part_003, lines 5-27 together with
`create`/`createIndestructible` for the physics body). -/
def mkBuilding (bt : String) : Building :=
  let ind := strIncludes bt ("indestructible")
  let mat := buildingMaterialType bt
  let maxHP := if ind then JsNum.inf else JsNum.fin (buildingMaxHitPoints mat bt)
  { buildingType := bt
    isIndestructible := ind
    material := mat
    maxHitPoints := maxHP
    hitPoints := maxHP
    damageThreshold := 20
    scoreValue := buildingScoreValue ind mat bt
    isDestroyed := false
    inScene := true
    bodyInWorld := true
    bodyMass := buildingBodyMass ind bt
    bodyStatic := ind }

/-- The method `Building.destroy` (part_003, lines 358-383): guarded by `isDestroyed`;
on first call marks destroyed, removes the mesh from the scene and the body
from the physics world. -/
def Building.destroy (b : Building) : Building :=
  if b.isDestroyed then b
  else { b with isDestroyed := true, inScene := false, bodyInWorld := false }

/-- The method `Building.takeDamage` (part_003, lines 281-308).  Returns the updated
building and the boolean result of the call. -/
def Building.takeDamage (b : Building) (impactForce : ℚ) : Building × Bool :=
  if b.isIndestructible then (b, false)
  else if impactForce < b.damageThreshold then (b, false)
  else
    let damage := (impactForce - b.damageThreshold) * 2
    let b1 := { b with hitPoints := b.hitPoints.sub damage }
    if b1.hitPoints.leZero then (b1.destroy, true) else (b1, false)

/-! ## Target (src/src/objects/Target.js) -/

/-- Observable state of a `Target`. -/
structure Target where
  ttype : String
  health : ℚ
  maxHealth : ℚ
  score : ℤ
  isDestroyed : Bool
  inScene : Bool
  bodyInWorld : Bool
  bodyMass : ℚ
deriving DecidableEq

/-- The method `Target.getHealthForType` (Target.js, lines 20-28). -/
def targetHealthForType (t : String) : ℚ :=
  if t = "basic" then 50
  else if t = "soldier" then 100
  else if t = "upgraded-soldier" then 150
  else if t = "loot" then 30
  else 50

/-- The method `Target.getScoreForType` (Target.js, lines 30-38). -/
def targetScoreForType (t : String) : ℤ :=
  if t = "basic" then 100
  else if t = "soldier" then 200
  else if t = "upgraded-soldier" then 300
  else if t = "loot" then 150
  else 100

/-- The `Target` constructor (Target.js, lines 5-18 with `create` for the
body mass: loot 2, others 5). -/
def mkTarget (t : String) : Target :=
  { ttype := t
    health := targetHealthForType t
    maxHealth := targetHealthForType t
    score := targetScoreForType t
    isDestroyed := false
    inScene := true
    bodyInWorld := true
    bodyMass := if t = "loot" then 2 else 5 }

/-- The method `Target.destroy` (Target.js, lines 192-220): guarded, returns whether
this call performed the destruction. -/
def Target.destroy (t : Target) : Target × Bool :=
  if t.isDestroyed then (t, false)
  else ({ t with isDestroyed := true, inScene := false, bodyInWorld := false }, true)

/-- The method `Target.takeDamage` (Target.js, lines 166-177): decrements `health`
unconditionally, destroys when it drops to 0 or below, and returns
`health <= 0`. -/
def Target.takeDamage (t : Target) (amount : ℚ) : Target × Bool :=
  let t1 := { t with health := t.health - amount }
  let t2 := if t1.health > 0 then t1 else (t1.destroy).1
  (t2, decide (t2.health ≤ 0))

/-! ## Scoring (src/src/Game.js, lines 1803-1817) -/

/-- The method `Game.calculateFinalScore`, as a function of the destroyed-target count,
the weighted obstacle score and the shots used. -/
def calculateFinalScore (targetsDestroyed obstacleScore shotsUsed : ℚ) : ℚ :=
  if shotsUsed = 0 then 0
  else (jsRound ((targetsDestroyed + obstacleScore) / shotsUsed * 100 * 10) : ℚ) / 10

/-- Rounding to one decimal place, as the spec phrases it. -/
def roundToTenth (x : ℚ) : ℚ := (jsRound (x * 10) : ℚ) / 10

/-! ## SaveSystem (src/unnamed/part_002) -/

/-- One per-level record of the save data. -/
structure LevelRec where
  completed : Bool
  highScore : ℚ
  bestTargets : ℚ
  bestObstacles : ℚ
  bestShots : JsNum
  attempts : ℤ
deriving DecidableEq

/-- The record created for a level on its first `updateLevel` call. -/
def initLevelRec : LevelRec :=
  { completed := false, highScore := 0, bestTargets := 0, bestObstacles := 0
    bestShots := JsNum.inf, attempts := 0 }

/-- The whole save-data blob (`levels`, `totalScore`, `levelsCompleted`). -/
structure SaveData where
  levels : ℤ → Option LevelRec
  totalScore : ℚ
  levelsCompleted : ℤ

/-- The default save data produced by `SaveSystem.load()` when nothing is
stored. -/
def emptySaveData : SaveData :=
  { levels := fun _ => none, totalScore := 0, levelsCompleted := 0 }

/-- The method `SaveSystem.updateLevel` (part_002, lines 40-70). -/
def updateLevel (d : SaveData) (n : ℤ)
    (score targetsDestroyed obstaclesDestroyed shotsUsed : ℚ) : SaveData :=
  let r0 := (d.levels n).getD initLevelRec
  let r1 := { r0 with attempts := r0.attempts + 1 }
  let r2 := if score > r1.highScore then
      { r1 with highScore := score, bestTargets := targetsDestroyed,
                bestObstacles := obstaclesDestroyed, bestShots := JsNum.fin shotsUsed }
    else r1
  let newCompleted := if r2.completed then d.levelsCompleted else d.levelsCompleted + 1
  let r3 := { r2 with completed := true }
  { d with levels := fun m => if m = n then some r3 else d.levels m
           levelsCompleted := newCompleted }

/-! ## PhysicsWorld collision classification (src/src/PhysicsWorld.js, lines 41-83) -/

/-- The material tag assigned to a physics body; `other` stands for a body
with no material assigned. -/
inductive Material where
  | ground : Material
  | object : Material
  | projectile : Material
  | other : Material
deriving DecidableEq

/-- A physics body, reduced to the attributes the collision listener reads. -/
structure Body where
  material : Material
  mass : ℝ
  vel : ℝ × ℝ × ℝ

/-- Magnitude of the relative velocity of two bodies
(`projectileBody.velocity.vsub(objectBody.velocity)` followed by `length()`). -/
noncomputable def relSpeed (a b : Body) : ℝ :=
  Real.sqrt ((a.vel.1 - b.vel.1)^2 + (a.vel.2.1 - b.vel.2.1)^2 + (a.vel.2.2 - b.vel.2.2)^2)

/-- The method `PhysicsWorld.calculateImpactForce` (PhysicsWorld.js, lines 68-83):
projectile mass times the magnitude of the relative velocity. -/
noncomputable def calculateImpactForce (projectileBody objectBody : Body) : ℝ :=
  projectileBody.mass * relSpeed projectileBody objectBody

/-- The data passed to every registered collision callback. -/
structure ContactEvent where
  projBody : Body
  objBody : Body
  impactForce : ℝ

/-- The `beginContact` listener (PhysicsWorld.js, lines 43-65): classifies the
contact and, when it qualifies, builds the event handed to every callback. -/
noncomputable def beginContactEvent (bodyA bodyB : Body) : Option ContactEvent :=
  if (bodyA.material = Material.projectile ∧ bodyB.material = Material.object) ∨
     (bodyB.material = Material.projectile ∧ bodyA.material = Material.object) then
    let p := if bodyA.material = Material.projectile then bodyA else bodyB
    let o := if bodyA.material = Material.projectile then bodyB else bodyA
    some { projBody := p, objBody := o, impactForce := calculateImpactForce p o }
  else none

/-- Fan-out to the registered callbacks (identified by their registration
ids): each callback receives the same event, or nothing when the contact does
not qualify. -/
noncomputable def collisionNotifications (cbs : List ℕ) (bodyA bodyB : Body) :
    List (ℕ × ContactEvent) :=
  match beginContactEvent bodyA bodyB with
  | some e => cbs.map (fun c => (c, e))
  | none => []

/-! ## TrajectoryPreview (src/src/TrajectoryPreview.js, lines 30-70) -/

/-- Closed-form sample at step index `i` (time `t = i * 0.08`):
`x = x0 + vx*t`, `y = y0 + vy*t - 0.5*g*t^2`, `z = z0 + vz*t`. -/
def trajRawPoint (start vel : ℚ × ℚ × ℚ) (g : ℚ) (i : ℕ) : ℚ × ℚ × ℚ :=
  let t : ℚ := i * (2/25)
  (start.1 + vel.1 * t,
   start.2.1 + vel.2.1 * t - (1/2) * g * t^2,
   start.2.2 + vel.2.2 * t)

/-- The sampling loop of `TrajectoryPreview.update`: starting at index `i`
with `rem` slots left, emit the closed-form sample unless its `y` is below
0.1, in which case the sample is clamped to `y = 0.1` and all remaining slots
are filled with that ground-impact point (the loop breaks). -/
def trajGo (start vel : ℚ × ℚ × ℚ) (g : ℚ) : ℕ → ℕ → List (ℚ × ℚ × ℚ)
  | _, 0 => []
  | i, Nat.succ rem =>
    let p := trajRawPoint start vel g i
    if p.2.1 < 1/10 then List.replicate (rem + 1) (p.1, 1/10, p.2.2)
    else p :: trajGo start vel g (i + 1) rem

/-- The 120 path points produced by one `TrajectoryPreview.update` call
(`numPoints = 120`, `timeStep = 0.08`, default `gravity = 9.82`). -/
def trajPoints (start vel : ℚ × ℚ × ℚ) (g : ℚ) : List (ℚ × ℚ × ℚ) :=
  trajGo start vel g 0 120

/-- The linear damping given to the projectile body by `Projectile.create`
(src/unnamed/part_004, line 38). -/
def projectileLinearDamping : ℚ := 1/100

/-- The world gravity magnitude (`PhysicsWorld` constructor, gravity
`(0, -9.82, 0)`), which is also the default `gravity` argument of
`TrajectoryPreview.update`. -/
def worldGravity : ℚ := 491/50

/-! ## Level collision-handler bookkeeping (src/src/Level.js) -/

/-- The method `PhysicsWorld.registerCollisionCallback`: append to the callback list.
Callbacks are represented by the id of the registering level. -/
def registerCollisionCallback (w : List ℕ) (h : ℕ) : List ℕ := w ++ [h]

/-- The method `PhysicsWorld.clearCollisionCallbacks`: reset the list. -/
def clearCollisionCallbacks (_ : List ℕ) : List ℕ := ([] : List ℕ)

/-- The `Level` constructor registers exactly one damage-routing callback
(`setupCollisionHandling`, Level.js lines 23-34). -/
def levelConstructHandlers (w : List ℕ) (h : ℕ) : List ℕ :=
  registerCollisionCallback w h

/-- The method `Level.clear` (Level.js, lines 529-554): clears all callbacks, then
re-registers this level's own handler. -/
def levelClearHandlers (w : List ℕ) (h : ℕ) : List ℕ :=
  registerCollisionCallback (clearCollisionCallbacks w) h

/-- The method `Level.load` begins with `this.clear()`; nothing later in `load` touches
the callback list. -/
def levelLoadHandlers (w : List ℕ) (h : ℕ) : List ℕ := levelClearHandlers w h

/-- A full level transition: `clear()` on the old level, construction of the
new level, then `load()` on the new level. -/
def levelTransitionHandlers (w : List ℕ) (oldH newH : ℕ) : List ℕ :=
  levelLoadHandlers (levelConstructHandlers (levelClearHandlers w oldH) newH) newH

/-! ## Level entity generation (src/src/Level.js, lines 36-163)

The `Level` constructor seeds `this.random = new SeededRandom(levelNumber *
12345)`.  `load()` first calls `clear()` (which consumes no random draws),
then builds the level for the given index, then calls
`spawnBattlefieldScenery()`.  Entity (building/target) categories for the
hand-authored levels 1-3 are fixed; `createRandomLevel` draws one `next()`
per placed building (`wall` when the draw is `> 0.5`, else `tower`) and one
`pick` per placed target.  Entity positions never depend on the drawn
values.  `spawnBattlefieldScenery` consumes exactly 21 seeded draws: each of
the 6 tents picks a colour (`MedievalAssets.createTent`, one `pick`), and the
pond places 5 lily pads at 3 `getRandom()` calls each
(`MedievalAssets.createPond`); every other scenery helper either uses no
randomness or calls the global `Math.random()`, which does not touch the
seeded stream. -/

/-- The table `types = ['basic', 'soldier', 'upgraded-soldier', 'loot']` in
`Level.getRandomTargetType`. -/
def targetTypes : List String := ["basic", "soldier", "upgraded-soldier", "loot"]

/-- The count `complexity = Math.min(this.levelNumber, 5)` as a loop count. -/
def levelComplexity (n : ℤ) : ℕ := (min n 5).toNat

/-- The category draws of the `createRandomLevel` loop: for each of `rem`
iterations, one `next()` for the building type and one `pick` for the target
type, threading the RNG state. -/
def randLoopCats : ℕ → ℤ → List String × List String × ℤ
  | 0, s => ([], [], s)
  | Nat.succ rem, s =>
    let d1 := drawNext s
    let bcat := if d1.1 > 1/2 then ("wall") else ("tower")
    let d2 := drawPick d1.2 targetTypes
    let r := randLoopCats rem d2.2
    (bcat :: r.1, d2.1 :: r.2.1, r.2.2)

/-- Building and target categories produced by `createRandomLevel`
(Level.js, lines 136-158), with the RNG state after the entity draws. -/
def createRandomLevelCats (n : ℤ) (s : ℤ) : List String × List String × ℤ :=
  let r := randLoopCats (levelComplexity n) s
  ("platform" :: r.1 ++ ["platform"], r.2.1 ++ ["upgraded-soldier"], r.2.2)

/-- The 21 seeded draws consumed by `spawnBattlefieldScenery` (6 tent-colour
picks plus 15 pond lily-pad draws). -/
def sceneryAdvance (s : ℤ) : ℤ := lcgAdvance 21 s

/-- One `Level.load()` call, projected to the building-category list, the
target-category list and the RNG state afterwards (Level.js, lines 36-59
with `createLevel1`/`createLevel2`/`createLevel3`/`createRandomLevel`). -/
def levelLoadCats (n : ℤ) (s : ℤ) : List String × List String × ℤ :=
  let r :=
    if n = 1 then
      (["platform", "wall", "wall", "platform"], ["basic", "loot"], s)
    else if n = 2 then
      (["platform", "wall", "wall", "wall", "wall", "platform", "wall", "wall", "platform"],
       ["soldier", "basic", "basic", "loot"], s)
    else if n = 3 then
      (["castle", "wall", "wall", "wall", "wall", "tower", "tower", "tower", "tower"],
       ["upgraded-soldier", "soldier", "soldier", "basic", "basic", "loot"], s)
    else createRandomLevelCats n s
  (r.1, r.2.1, sceneryAdvance r.2.2)

/-- The RNG state held by a freshly constructed `Level` for index `n`
(`new SeededRandom(levelNumber * 12345)`). -/
def levelInitSeed (n : ℤ) : ℤ := seededRandomInit (n * 12345)

/-- A placed entity: category and position. -/
structure Placed where
  category : String
  x : ℝ
  y : ℝ
  z : ℝ

/-- Position of a placed entity. -/
def placedPos (p : Placed) : ℝ × ℝ × ℝ := (p.x, p.y, p.z)

/-- The `createRandomLevel` loop with positions: iteration `i` of `cx` places
a building at `(baseX + cos(angle)*3, 1, sin(angle)*3)` and a target at
`(x, 2.5, z)` with `angle = (i / cx) * π * 2`, drawing the categories from
the seeded RNG exactly as `randLoopCats` does. -/
noncomputable def randLoopFull (baseX : ℝ) (cx : ℕ) : ℕ → ℕ → ℤ →
    List Placed × List Placed × ℤ
  | _, 0, s => ([], [], s)
  | i, Nat.succ rem, s =>
    let d1 := drawNext s
    let bcat := if d1.1 > 1/2 then ("wall") else ("tower")
    let d2 := drawPick d1.2 targetTypes
    let angle : ℝ := ((i : ℝ) / (cx : ℝ)) * Real.pi * 2
    let x := baseX + Real.cos angle * 3
    let z := Real.sin angle * 3
    let r := randLoopFull baseX cx (i + 1) rem d2.2
    (⟨bcat, x, 1, z⟩ :: r.1, ⟨d2.1, x, 5/2, z⟩ :: r.2.1, r.2.2)

/-- One `Level.load()` call with categories and positions: the placed
buildings, the placed targets, and the RNG state afterwards. -/
noncomputable def levelLoadFull (n : ℤ) (s : ℤ) : List Placed × List Placed × ℤ :=
  let r :=
    if n = 1 then
      ([⟨"platform", 20, 3/20, 0⟩, ⟨"wall", 19, 1, 0⟩, ⟨"wall", 21, 1, 0⟩,
        ⟨"platform", 20, 2, 0⟩],
       [⟨"basic", 20, 14/5, 0⟩, ⟨"loot", 96/5, 14/5, 0⟩], s)
    else if n = 2 then
      ([⟨"platform", 25, 1/2, 0⟩, ⟨"wall", 47/2, 3/2, -(3/2)⟩, ⟨"wall", 53/2, 3/2, -(3/2)⟩,
        ⟨"wall", 47/2, 3/2, 3/2⟩, ⟨"wall", 53/2, 3/2, 3/2⟩, ⟨"platform", 25, 14/5, 0⟩,
        ⟨"wall", 24, 9/2, 0⟩, ⟨"wall", 26, 9/2, 0⟩, ⟨"platform", 25, 11/2, 0⟩],
       [⟨"soldier", 25, 7/2, 0⟩, ⟨"basic", 24, 7/2, 0⟩, ⟨"basic", 26, 7/2, 0⟩,
        ⟨"loot", 25, 31/5, 0⟩], s)
    else if n = 3 then
      ([⟨"castle", 30, 2, 0⟩, ⟨"wall", 26, 1, 0⟩, ⟨"wall", 34, 1, 0⟩,
        ⟨"wall", 30, 1, -4⟩, ⟨"wall", 30, 1, 4⟩, ⟨"tower", 27, 2, -3⟩,
        ⟨"tower", 33, 2, -3⟩, ⟨"tower", 27, 2, 3⟩, ⟨"tower", 33, 2, 3⟩],
       [⟨"upgraded-soldier", 30, 9/2, 0⟩, ⟨"soldier", 28, 4/5, -2⟩,
        ⟨"soldier", 32, 4/5, -2⟩, ⟨"basic", 28, 4/5, 2⟩, ⟨"basic", 32, 4/5, 2⟩,
        ⟨"loot", 30, 1/2, 0⟩], s)
    else
      let baseX : ℝ := 20 + (n : ℝ) * 5
      let q := randLoopFull baseX (levelComplexity n) 0 (levelComplexity n) s
      (⟨"platform", baseX, 3/20, 0⟩ :: q.1 ++ [⟨"platform", baseX, 2, 0⟩],
       q.2.1 ++ [⟨"upgraded-soldier", baseX, 3, 0⟩], q.2.2)
  (r.1, r.2.1, sceneryAdvance r.2.2)

/-! ### Kernel-computable integer twins of the category pipeline

The draws of `createRandomLevel` are compared against 0.5 and multiplied by
the 4-element type table; both tests have exact integer forms, which the
kernel can evaluate on concrete seeds (rational arithmetic imported from
Mathlib does not reduce in the kernel).  The twins below are proved equal to
the faithful definitions in `randLoopCats_eq_twin` / `levelLoadCats_eq_twin`. -/

/-- Integer form of the test `next() > 0.5`, for the updated state `s`:
`(s - 1) / 2147483646 > 1/2` iff `1073741824 < s`. -/
def drawGtHalf (s : ℤ) : Bool := decide (1073741824 < s)

/-- Integer form of `Math.floor(next() * 4)`, for the updated state `s`. -/
def drawPickIdx4 (s : ℤ) : ℕ := ((4 * (s - 1)) / 2147483646).toNat

/-- Integer twin of `randLoopCats`. -/
def randLoopCatsZ : ℕ → ℤ → List String × List String × ℤ
  | 0, s => ([], [], s)
  | Nat.succ rem, s =>
    let s1 := lcgNext s
    let bcat := if drawGtHalf s1 then ("wall") else ("tower")
    let s2 := lcgNext s1
    let tcat := targetTypes.getD (drawPickIdx4 s2) "undefined"
    let r := randLoopCatsZ rem s2
    (bcat :: r.1, tcat :: r.2.1, r.2.2)

/-- Integer twin of `createRandomLevelCats`. -/
def createRandomLevelCatsZ (n : ℤ) (s : ℤ) : List String × List String × ℤ :=
  let r := randLoopCatsZ (levelComplexity n) s
  ("platform" :: r.1 ++ ["platform"], r.2.1 ++ ["upgraded-soldier"], r.2.2)

/-- Integer twin of `levelLoadCats`. -/
def levelLoadCatsZ (n : ℤ) (s : ℤ) : List String × List String × ℤ :=
  let r :=
    if n = 1 then
      (["platform", "wall", "wall", "platform"], ["basic", "loot"], s)
    else if n = 2 then
      (["platform", "wall", "wall", "wall", "wall", "platform", "wall", "wall", "platform"],
       ["soldier", "basic", "basic", "loot"], s)
    else if n = 3 then
      (["castle", "wall", "wall", "wall", "wall", "tower", "tower", "tower", "tower"],
       ["upgraded-soldier", "soldier", "soldier", "basic", "basic", "loot"], s)
    else createRandomLevelCatsZ n s
  (r.1, r.2.1, sceneryAdvance r.2.2)

/-! ## Helper lemmas -/

/-- Subtracting a zero damage amount leaves a JS health value unchanged. -/
theorem JsNum.sub_zero (x : JsNum) : x.sub 0 = x := by
  cases x <;> simp [JsNum.sub]

/-- The method `Building.destroy` never touches the hit-point field. -/
theorem Building.destroy_hitPoints (b : Building) : b.destroy.hitPoints = b.hitPoints := by
  unfold Building.destroy; split <;> rfl

/-- The method `Building.destroy` never touches the indestructible flag. -/
theorem Building.destroy_isIndestructible (b : Building) :
    b.destroy.isIndestructible = b.isIndestructible := by
  unfold Building.destroy; split <;> rfl

/-! ## C6: collision handlers across a level transition -/

/-- Claim C6: after a level transition (clear() on the old Level,
construction of the new Level, then load() on the new Level) exactly one
collision-damage handler is registered with the World: the new level's own,
with no duplicates and none missing. -/
theorem levelTransition_single_handler (w : List ℕ) (oldH newH : ℕ) :
    levelTransitionHandlers w oldH newH = [newH] ∧
    (levelTransitionHandlers w oldH newH).length = 1 :=
  ⟨rfl, rfl⟩

/-! ## C7: final score formula -/

/-- Claim C7: the final score is 0 whenever shotsUsed = 0, and otherwise
equals ((targetsDestroyed + weightedObstacleScore) / shotsUsed) × 100 rounded
to one decimal place; in particular targetsDestroyed = 5, obstacleScore = 2.5,
shotsUsed = 10 yields exactly 75.0, and the result is always an integer
multiple of one tenth. -/
theorem calculateFinalScore_spec :
    (∀ t o : ℚ, calculateFinalScore t o 0 = 0) ∧
    calculateFinalScore 5 (5/2) 10 = 75 ∧
    (∀ t o s : ℚ, s ≠ 0 →
      calculateFinalScore t o s = roundToTenth ((t + o) / s * 100)) ∧
    (∀ t o s : ℚ, ∃ n : ℤ, calculateFinalScore t o s = (n : ℚ) / 10) := by
  refine ⟨fun t o => by simp [calculateFinalScore], ?_, ?_, ?_⟩
  · norm_num [calculateFinalScore, jsRound]
  · intro t o s hs
    simp [calculateFinalScore, roundToTenth, hs]
  · intro t o s
    by_cases hs : s = 0
    · exact ⟨0, by simp [calculateFinalScore, hs]⟩
    · exact ⟨jsRound ((t + o) / s * 100 * 10), by simp [calculateFinalScore, hs]⟩

/-- Witness for C7 at targetsDestroyed = 5, obstacleScore = 2.5,
shotsUsed = 10. -/
theorem calculateFinalScore_spec_witness :
    calculateFinalScore 5 (5/2) 10 = 75 ∧
    calculateFinalScore 3 1 0 = 0 ∧
    calculateFinalScore 5 (5/2) 10 = roundToTenth ((5 + 5/2) / 10 * 100) := by
  exact ⟨calculateFinalScore_spec.2.1, calculateFinalScore_spec.1 3 1,
    calculateFinalScore_spec.2.2.1 5 (5/2) 10 (by norm_num)⟩

/-! ## C1: building damage threshold -/

/-- Claim C1: for every Building (whose constructor-established invariants
hold: threshold 20, indestructible buildings carry infinite hit points) and
every impact force f, takeDamage(f) with f strictly below the threshold 20
leaves the whole state unchanged (so no partial accumulation is possible) and
returns "not destroyed"; with f at or above the threshold the hit points drop
by exactly (f - 20) * 2, so f exactly 20 reduces health by exactly 0. -/
theorem building_damage_threshold (b : Building) (f : ℚ)
    (hthr : b.damageThreshold = 20)
    (hind : b.isIndestructible = true → b.hitPoints = JsNum.inf) :
    (f < 20 → b.takeDamage f = (b, false)) ∧
    (20 ≤ f → (b.takeDamage f).1.hitPoints = b.hitPoints.sub ((f - 20) * 2)) ∧
    (f = 20 → (b.takeDamage f).1.hitPoints = b.hitPoints) := by
  have key : ¬ f < 20 → (b.takeDamage f).1.hitPoints = b.hitPoints.sub ((f - 20) * 2) := by
    intro hf
    unfold Building.takeDamage
    rw [hthr]
    by_cases hb : b.isIndestructible = true
    · rw [if_pos hb]
      show b.hitPoints = b.hitPoints.sub ((f - 20) * 2)
      rw [hind hb]
      rfl
    · rw [if_neg hb, if_neg hf]
      dsimp only
      split
      · rw [Building.destroy_hitPoints]
      · rfl
  have key1 : f < 20 → b.takeDamage f = (b, false) := by
    intro hf
    unfold Building.takeDamage
    rw [hthr]
    by_cases hb : b.isIndestructible = true
    · rw [if_pos hb]
    · rw [if_neg hb, if_pos hf]
  refine ⟨key1, fun hf => key (not_lt.mpr hf), fun hf => ?_⟩
  subst hf
  rw [key (by norm_num), show ((20 : ℚ) - 20) * 2 = 0 by norm_num, JsNum.sub_zero]

/-- Witness for C1 on a stone wall: a force of 19 is ignored entirely and a
force of 30 removes exactly (30 - 20) * 2 hit points. -/
theorem building_damage_threshold_witness :
    (mkBuilding ("wall")).takeDamage 19 = (mkBuilding ("wall"), false) ∧
    ((mkBuilding ("wall")).takeDamage 30).1.hitPoints =
      (mkBuilding ("wall")).hitPoints.sub (((30 : ℚ) - 20) * 2) ∧
    ((mkBuilding ("wall")).takeDamage 20).1.hitPoints = (mkBuilding ("wall")).hitPoints := by
  have h19 := building_damage_threshold (mkBuilding ("wall")) 19 rfl
    (fun h => absurd h (by decide))
  have h30 := building_damage_threshold (mkBuilding ("wall")) 30 rfl
    (fun h => absurd h (by decide))
  have h20 := building_damage_threshold (mkBuilding ("wall")) 20 rfl
    (fun h => absurd h (by decide))
  exact ⟨h19.1 (by norm_num), h30.2.1 (by norm_num), h20.2.2 rfl⟩

/-! ## C9: indestructible buildings -/

/-- Claim C9: a Building whose category tag contains "indestructible" ignores
takeDamage for every force (state unchanged, returns "not destroyed"), keeps
its health at its maximum (both infinite), has score value 0, and owns a
static physics body of mass 0. -/
theorem indestructible_building_spec (bt : String)
    (h : strIncludes bt ("indestructible") = true) (f : ℚ) :
    (mkBuilding bt).takeDamage f = (mkBuilding bt, false) ∧
    (mkBuilding bt).hitPoints = JsNum.inf ∧
    (mkBuilding bt).maxHitPoints = JsNum.inf ∧
    (mkBuilding bt).scoreValue = 0 ∧
    (mkBuilding bt).bodyMass = 0 ∧
    (mkBuilding bt).bodyStatic = true := by
  refine ⟨?_, ?_, ?_, ?_, ?_, ?_⟩ <;>
    simp [mkBuilding, Building.takeDamage, buildingScoreValue, buildingBodyMass, h]

/-- Witness for C9 on an indestructible wall hit with force 1000. -/
theorem indestructible_building_spec_witness :
    (mkBuilding ("indestructible-wall")).takeDamage 1000 =
      (mkBuilding ("indestructible-wall"), false) ∧
    (mkBuilding ("indestructible-wall")).hitPoints = JsNum.inf ∧
    (mkBuilding ("indestructible-wall")).scoreValue = 0 ∧
    (mkBuilding ("indestructible-wall")).bodyMass = 0 ∧
    (mkBuilding ("indestructible-wall")).bodyStatic = true := by
  have h := indestructible_building_spec ("indestructible-wall") (by decide) 1000
  exact ⟨h.1, h.2.1, h.2.2.2.1, h.2.2.2.2.1, h.2.2.2.2.2⟩

/-! ## C2: lifecycle after destruction -/

/-- On an already-destroyed building, `takeDamage` never changes the
destroyed flag, the scene membership or the body registration (though it may
still change `hitPoints`). -/
theorem building_takeDamage_flags_destroyed (b : Building) (f : ℚ)
    (hb : b.isDestroyed = true) :
    (b.takeDamage f).1.isDestroyed = true ∧
    (b.takeDamage f).1.inScene = b.inScene ∧
    (b.takeDamage f).1.bodyInWorld = b.bodyInWorld := by
  unfold Building.takeDamage
  split
  · exact ⟨hb, rfl, rfl⟩
  · split
    · exact ⟨hb, rfl, rfl⟩
    · dsimp only
      split
      · simp [Building.destroy, hb]
      · exact ⟨hb, rfl, rfl⟩

/-- On an already-destroyed target, `takeDamage` never changes the destroyed
flag, the scene membership or the body registration (though it always changes
`health`). -/
theorem target_takeDamage_flags_destroyed (t : Target) (amt : ℚ)
    (ht : t.isDestroyed = true) :
    (t.takeDamage amt).1.isDestroyed = true ∧
    (t.takeDamage amt).1.inScene = t.inScene ∧
    (t.takeDamage amt).1.bodyInWorld = t.bodyInWorld := by
  unfold Target.takeDamage
  dsimp only
  split
  · exact ⟨ht, rfl, rfl⟩
  · simp [Target.destroy, ht]

/-- Claim C2 (amended): destroy() is idempotent on every Target and Building
(a second call leaves the observable state unchanged), and takeDamage on an
already-destroyed entity leaves the destroyed flag, the scene membership and
the physics-body registration unchanged; the stored health / hitPoints field,
however, is still decremented by such a call (see the counterexample). -/
theorem destruction_lifecycle_amended (t : Target) (b : Building) (amt f : ℚ) :
    ((t.destroy).1.destroy).1 = (t.destroy).1 ∧
    (b.destroy).destroy = b.destroy ∧
    (t.isDestroyed = true →
      (t.takeDamage amt).1.isDestroyed = true ∧
      (t.takeDamage amt).1.inScene = t.inScene ∧
      (t.takeDamage amt).1.bodyInWorld = t.bodyInWorld) ∧
    (b.isDestroyed = true →
      (b.takeDamage f).1.isDestroyed = true ∧
      (b.takeDamage f).1.inScene = b.inScene ∧
      (b.takeDamage f).1.bodyInWorld = b.bodyInWorld) := by
  refine ⟨?_, ?_, target_takeDamage_flags_destroyed t amt,
    building_takeDamage_flags_destroyed b f⟩
  · by_cases ht : t.isDestroyed = true <;> simp [Target.destroy, ht]
  · by_cases hb : b.isDestroyed = true <;> simp [Building.destroy, hb]

/-- Counterexample to claim C2 as stated: a destroyed basic target (destroyed
by an explicit destroy() call, e.g. the fall-through check) still has its
`health` field decremented by a later takeDamage call, so damage after
destruction is not a no-op on all observable state. -/
theorem target_damage_after_destroy_mutates :
    ((mkTarget ("basic")).destroy).1.isDestroyed = true ∧
    ((((mkTarget ("basic")).destroy).1.takeDamage 50).1.health ≠
      ((mkTarget ("basic")).destroy).1.health) := by
  constructor
  · decide
  · show ((((mkTarget ("basic")).destroy).1.takeDamage 50).1.health ≠ 50)
    norm_num [mkTarget, Target.destroy, Target.takeDamage, targetHealthForType,
      targetScoreForType]

/-- Witness for the amended C2 on a destroyed basic target and a destroyed
stone wall. -/
theorem destruction_lifecycle_amended_witness :
    (((((mkTarget ("basic")).destroy).1.destroy).1.destroy).1 =
      (((mkTarget ("basic")).destroy).1.destroy).1) ∧
    ((((mkBuilding ("wall")).destroy).destroy).destroy = ((mkBuilding ("wall")).destroy).destroy) ∧
    ((((mkTarget ("basic")).destroy).1.takeDamage 50).1.isDestroyed = true ∧
      (((mkTarget ("basic")).destroy).1.takeDamage 50).1.inScene =
        ((mkTarget ("basic")).destroy).1.inScene ∧
      (((mkTarget ("basic")).destroy).1.takeDamage 50).1.bodyInWorld =
        ((mkTarget ("basic")).destroy).1.bodyInWorld) ∧
    ((((mkBuilding ("wall")).destroy).takeDamage 30).1.isDestroyed = true ∧
      (((mkBuilding ("wall")).destroy).takeDamage 30).1.inScene =
        ((mkBuilding ("wall")).destroy).inScene ∧
      (((mkBuilding ("wall")).destroy).takeDamage 30).1.bodyInWorld =
        ((mkBuilding ("wall")).destroy).bodyInWorld) := by
  have h := destruction_lifecycle_amended ((mkTarget ("basic")).destroy).1
    ((mkBuilding ("wall")).destroy) 50 30
  exact ⟨h.1, h.2.1, h.2.2.1 (by decide), h.2.2.2 (by decide)⟩

/-! ## C10: SeededRandom state invariant -/

/-- Bounds of the JS remainder for a positive modulus. -/
theorem jsRem_bounds (a b : ℤ) (hb : 0 < b) :
    -(b - 1) ≤ jsRem a b ∧ jsRem a b ≤ b - 1 := by
  unfold jsRem
  split
  · have h1 : 0 ≤ (-a) % b := Int.emod_nonneg _ (ne_of_gt hb)
    have h2 : (-a) % b < b := Int.emod_lt_of_pos _ hb
    omega
  · have h1 : 0 ≤ a % b := Int.emod_nonneg _ (ne_of_gt hb)
    have h2 : a % b < b := Int.emod_lt_of_pos _ hb
    omega

/-- The constructor normalization lands in [1, 2147483646] for every integer
seed whose JS remainder by 2147483647 is not the single bad value
-2147483646. -/
theorem seededRandomInit_range (seed : ℤ)
    (h : jsRem seed 2147483647 ≠ -2147483646) :
    1 ≤ seededRandomInit seed ∧ seededRandomInit seed ≤ 2147483646 := by
  obtain ⟨hb1, hb2⟩ := jsRem_bounds seed 2147483647 (by norm_num)
  unfold seededRandomInit
  dsimp only
  split <;> omega

/-- The modulus 2147483647 and the multiplier 16807 are coprime (explicit Bezout
identity). -/
theorem lcg_coprime : IsCoprime (2147483647 : ℤ) 16807 :=
  ⟨-11017, 1407677000, by norm_num⟩

/-- One `next()` step keeps the state inside [1, 2147483646]. -/
theorem lcgNext_range (s : ℤ) (h1 : 1 ≤ s) (h2 : s ≤ 2147483646) :
    1 ≤ lcgNext s ∧ lcgNext s ≤ 2147483646 := by
  have hnn : (0 : ℤ) ≤ s * 16807 := mul_nonneg (by omega) (by norm_num)
  unfold lcgNext jsRem
  rw [if_neg (not_lt.mpr hnn)]
  have hge : 0 ≤ s * 16807 % 2147483647 := Int.emod_nonneg _ (by norm_num)
  have hlt : s * 16807 % 2147483647 < 2147483647 := Int.emod_lt_of_pos _ (by norm_num)
  have hne : s * 16807 % 2147483647 ≠ 0 := by
    intro h0
    have hdvd : (2147483647 : ℤ) ∣ s * 16807 := Int.dvd_of_emod_eq_zero h0
    have hdvds : (2147483647 : ℤ) ∣ s := lcg_coprime.dvd_of_dvd_mul_right hdvd
    have := Int.le_of_dvd (by omega) hdvds
    omega
  omega

/-- The value returned by `next()` from an in-range updated state lies in
[0, 1). -/
theorem lcgOut_range (s : ℤ) (h1 : 1 ≤ s) (h2 : s ≤ 2147483646) :
    0 ≤ lcgOut s ∧ lcgOut s < 1 := by
  have hc1 : (1 : ℚ) ≤ (s : ℚ) := by exact_mod_cast h1
  have hc2 : (s : ℚ) ≤ 2147483646 := by exact_mod_cast h2
  unfold lcgOut
  constructor
  · apply div_nonneg _ (by norm_num)
    linarith
  · rw [div_lt_one (by norm_num)]
    linarith

/-- Claim C10 (amended): for every integer seed except those whose JS
remainder by 2147483647 equals -2147483646 (negative seeds congruent to 1
modulo 2147483647), the constructor normalizes the seed into [1, 2147483646],
and from any state in that range next() keeps the state in the range and
returns a value in [0, 1); the whole output stream is a pure function of the
seed by construction. -/
theorem seededRandom_invariant (seed : ℤ)
    (h : jsRem seed 2147483647 ≠ -2147483646) :
    (1 ≤ seededRandomInit seed ∧ seededRandomInit seed ≤ 2147483646) ∧
    (∀ s : ℤ, 1 ≤ s → s ≤ 2147483646 →
      (1 ≤ lcgNext s ∧ lcgNext s ≤ 2147483646) ∧
      (0 ≤ lcgOut (lcgNext s) ∧ lcgOut (lcgNext s) < 1)) := by
  refine ⟨seededRandomInit_range seed h, fun s h1 h2 => ?_⟩
  have hn := lcgNext_range s h1 h2
  exact ⟨hn, lcgOut_range _ hn.1 hn.2⟩

/-- Counterexample to claim C10 as stated: the constructor normalizes the
integer seed -2147483646 to state 0, outside [1, 2147483646], and the first
next() call then returns a negative value, outside [0, 1). -/
theorem seededRandomInit_escapes_range :
    seededRandomInit (-2147483646) = 0 ∧
    lcgOut (lcgNext (seededRandomInit (-2147483646))) < 0 := by
  have h0 : seededRandomInit (-2147483646) = 0 := by decide
  refine ⟨h0, ?_⟩
  rw [h0]
  norm_num [lcgNext, jsRem, lcgOut]

/-- Witness for the amended C10 at seed 5 and state 1. -/
theorem seededRandom_invariant_witness :
    (1 ≤ seededRandomInit 5 ∧ seededRandomInit 5 ≤ 2147483646) ∧
    ((1 ≤ lcgNext 1 ∧ lcgNext 1 ≤ 2147483646) ∧
      (0 ≤ lcgOut (lcgNext 1) ∧ lcgOut (lcgNext 1) < 1)) := by
  have h := seededRandom_invariant 5 (by decide)
  exact ⟨h.1, h.2 1 (by norm_num) (by norm_num)⟩

/-! ## C3: collision classification and impact force -/

/-- The magnitude of the relative velocity is symmetric in the two bodies. -/
theorem relSpeed_comm (a b : Body) : relSpeed a b = relSpeed b a := by
  unfold relSpeed
  congr 1
  ring

/-- Claim C3: the world notifies its registered collision callbacks for a
begin-contact event iff exactly one body carries the projectile material and
the other carries the object material (so ground-object and projectile-ground
contacts never notify), and the impact force handed to every callback is the
projectile-tagged body's mass times the magnitude of the relative velocity of
the two bodies. -/
theorem collision_classification (A B : Body) (cbs : List ℕ) :
    ((beginContactEvent A B).isSome = true ↔
      ((A.material = Material.projectile ∧ B.material = Material.object) ∨
       (B.material = Material.projectile ∧ A.material = Material.object))) ∧
    ((A.material = Material.ground ∨ B.material = Material.ground) →
      beginContactEvent A B = none) ∧
    (∀ e, beginContactEvent A B = some e →
      e.projBody.material = Material.projectile ∧
      e.objBody.material = Material.object ∧
      e.impactForce = e.projBody.mass * relSpeed A B ∧
      collisionNotifications cbs A B = cbs.map (fun c => (c, e))) := by
  by_cases hcond : (A.material = Material.projectile ∧ B.material = Material.object) ∨
      (B.material = Material.projectile ∧ A.material = Material.object)
  · have hful : beginContactEvent A B =
        some { projBody := if A.material = Material.projectile then A else B,
               objBody := if A.material = Material.projectile then B else A,
               impactForce :=
                 calculateImpactForce (if A.material = Material.projectile then A else B)
                   (if A.material = Material.projectile then B else A) } := by
      unfold beginContactEvent
      rw [if_pos hcond]
    refine ⟨by simp [hful, hcond], ?_, ?_⟩
    · rintro (hg | hg) <;> rcases hcond with ⟨h1, h2⟩ | ⟨h1, h2⟩ <;> simp_all
    · intro e he
      have hnotif : collisionNotifications cbs A B = cbs.map (fun c => (c, e)) := by
        unfold collisionNotifications
        rw [he]
      rw [hful] at he
      obtain rfl := (Option.some.inj he).symm
      by_cases hA : A.material = Material.projectile
      · simp only [if_pos hA] at hnotif ⊢
        refine ⟨hA, ?_, ?_, hnotif⟩
        · rcases hcond with ⟨h1, h2⟩ | ⟨h1, h2⟩
          · exact h2
          · rw [h2] at hA
            exact absurd hA (by decide)
        · rfl
      · rcases hcond with ⟨h1, h2⟩ | ⟨h1, h2⟩
        · exact absurd h1 hA
        · simp only [if_neg hA] at hnotif ⊢
          refine ⟨h1, h2, ?_, hnotif⟩
          show calculateImpactForce B A = B.mass * relSpeed A B
          unfold calculateImpactForce
          rw [relSpeed_comm B A]
  · have hnone : beginContactEvent A B = none := by
      unfold beginContactEvent
      rw [if_neg hcond]
    refine ⟨by simp [hnone, hcond], fun _ => hnone, fun e he => ?_⟩
    rw [hnone] at he
    exact absurd he (by simp)

/-- Witness for C3: a projectile of mass 10 hitting an object body notifies
with force mass × relative speed, while a ground body never notifies. -/
theorem collision_classification_witness :
    ((beginContactEvent { material := Material.projectile, mass := 10, vel := (3, 4, 0) }
        { material := Material.object, mass := 5, vel := (0, 0, 0) }).isSome = true) ∧
    (∃ e, beginContactEvent { material := Material.projectile, mass := 10, vel := (3, 4, 0) }
        { material := Material.object, mass := 5, vel := (0, 0, 0) } = some e ∧
      e.projBody.material = Material.projectile ∧
      e.impactForce = e.projBody.mass *
        relSpeed { material := Material.projectile, mass := 10, vel := (3, 4, 0) }
          { material := Material.object, mass := 5, vel := (0, 0, 0) }) ∧
    (beginContactEvent { material := Material.ground, mass := 0, vel := (0, 0, 0) }
        { material := Material.object, mass := 5, vel := (0, 0, 0) } = none) := by
  have h := collision_classification
    { material := Material.projectile, mass := 10, vel := (3, 4, 0) }
    { material := Material.object, mass := 5, vel := (0, 0, 0) } [0]
  have hg := collision_classification
    { material := Material.ground, mass := 0, vel := (0, 0, 0) }
    { material := Material.object, mass := 5, vel := (0, 0, 0) } [0]
  have hsome := h.1.mpr (Or.inl ⟨rfl, rfl⟩)
  obtain ⟨e, he⟩ := Option.isSome_iff_exists.mp hsome
  exact ⟨hsome, ⟨e, he, (h.2.2 e he).1, (h.2.2 e he).2.2.1⟩, hg.2.1 (Or.inl rfl)⟩

/-! ## C4: trajectory sampler -/

/-- Every slot of a replicated list reads back the replicated element. -/
theorem replicate_getD {a : Type} : ∀ (n m : Nat) (x d : a), m < n ->
    (List.replicate n x).getD m d = x
  | 0, m, _, _, h => absurd h (Nat.not_lt_zero m)
  | _ + 1, 0, _, _, _ => rfl
  | n + 1, m + 1, x, d, h => replicate_getD n m x d (Nat.lt_of_succ_lt_succ h)

/-- The sampling loop always fills exactly `rem` slots. -/
theorem trajGo_length (start vel : Rat × Rat × Rat) (g : Rat) :
    ∀ (rem i : Nat), (trajGo start vel g i rem).length = rem := by
  intro rem
  induction rem with
  | zero => intro i; rfl
  | succ n ih =>
    intro i
    unfold trajGo
    dsimp only
    split
    · simp
    · simp [ih]

/-- Before any ground crossing, slot `k` holds the closed-form sample at
index `i + k`. -/
theorem trajGo_getD_no_cross (start vel : Rat × Rat × Rat) (g : Rat) :
    ∀ (rem i k : Nat), k < rem ->
      (∀ j, j <= k -> 1/10 <= (trajRawPoint start vel g (i + j)).2.1) ->
      (trajGo start vel g i rem).getD k (0, 0, 0) = trajRawPoint start vel g (i + k) := by
  intro rem
  induction rem with
  | zero => intro i k hk _; exact absurd hk (Nat.not_lt_zero k)
  | succ n ih =>
    intro i k hk hno
    have h0 : ¬ (trajRawPoint start vel g i).2.1 < 1/10 := by
      have := not_lt.mpr (hno 0 (Nat.zero_le k))
      rwa [Nat.add_zero] at this
    unfold trajGo
    dsimp only
    rw [if_neg h0]
    cases k with
    | zero =>
      show trajRawPoint start vel g i = trajRawPoint start vel g (i + 0)
      rw [Nat.add_zero]
    | succ m =>
      show (trajGo start vel g (i + 1) n).getD m (0, 0, 0) = _
      rw [ih (i + 1) m (Nat.lt_of_succ_lt_succ hk) ?_]
      · congr 1
        omega
      · intro j hj
        have := hno (j + 1) (Nat.succ_le_succ hj)
        rwa [show i + (j + 1) = i + 1 + j by omega] at this

/-- From the first crossing onward, every remaining slot holds the clamped
ground-impact point. -/
theorem trajGo_getD_cross (start vel : Rat × Rat × Rat) (g : Rat) :
    ∀ (rem i k : Nat), k < rem ->
      (trajRawPoint start vel g (i + k)).2.1 < 1/10 ->
      (∀ j, j < k -> 1/10 <= (trajRawPoint start vel g (i + j)).2.1) ->
      ∀ m, k <= m -> m < rem ->
        (trajGo start vel g i rem).getD m (0, 0, 0) =
          ((trajRawPoint start vel g (i + k)).1, 1/10, (trajRawPoint start vel g (i + k)).2.2) := by
  intro rem
  induction rem with
  | zero => intro i k hk _ _ m _ hm; exact absurd hm (Nat.not_lt_zero m)
  | succ n ih =>
    intro i k hk hcross hno m hkm hm
    unfold trajGo
    dsimp only
    cases k with
    | zero =>
      have hc : (trajRawPoint start vel g i).2.1 < 1/10 := by rwa [Nat.add_zero] at hcross
      rw [if_pos hc, replicate_getD (n + 1) m _ _ hm, Nat.add_zero]
    | succ kk =>
      have h0 : ¬ (trajRawPoint start vel g i).2.1 < 1/10 := by
        have := not_lt.mpr (hno 0 (Nat.succ_pos kk))
        rwa [Nat.add_zero] at this
      rw [if_neg h0]
      cases m with
      | zero => omega
      | succ mm =>
        show (trajGo start vel g (i + 1) n).getD mm (0, 0, 0) = _
        have hidx : i + 1 + kk = i + (kk + 1) := by omega
        rw [ih (i + 1) kk (by omega) (by rwa [hidx]) ?_ mm (by omega) (by omega), hidx]
        intro j hj
        have := hno (j + 1) (by omega)
        rwa [show i + (j + 1) = i + 1 + j by omega] at this

/-- Claim C4 (amended): the trajectory preview samples the closed-form
drag-free projectile motion x(t) = x0 + vx t, y(t) = y0 + vy t - g t^2 / 2,
z(t) = z0 + vz t at the fixed time step 0.08 for the fixed sample count 120;
it terminates early once y crosses the threshold 0.1, clamping that sample
and all remaining samples to the ground-impact point.  The simulated
projectile, however, is created with linear damping 0.01 rather than 0 (see
the counterexample), so the drag-free closed form only approximates the
simulated motion. -/
theorem trajectory_sampler_spec (start vel : Rat × Rat × Rat) (g : Rat) :
    (trajPoints start vel g).length = 120 ∧
    (∀ k, k < 120 -> (∀ j, j <= k -> 1/10 <= (trajRawPoint start vel g j).2.1) ->
      (trajPoints start vel g).getD k (0, 0, 0) = trajRawPoint start vel g k) ∧
    (∀ k, k < 120 -> (trajRawPoint start vel g k).2.1 < 1/10 ->
      (∀ j, j < k -> 1/10 <= (trajRawPoint start vel g j).2.1) ->
      ∀ m, k <= m -> m < 120 ->
        (trajPoints start vel g).getD m (0, 0, 0) =
          ((trajRawPoint start vel g k).1, 1/10, (trajRawPoint start vel g k).2.2)) ∧
    (∀ i : Nat, trajRawPoint start vel g i =
      (start.1 + vel.1 * (i * (2/25)),
       start.2.1 + vel.2.1 * (i * (2/25)) - (1/2) * g * (i * (2/25))^2,
       start.2.2 + vel.2.2 * (i * (2/25)))) := by
  refine ⟨trajGo_length start vel g 120 0, fun k hk hno => ?_, fun k hk hc hno m hkm hm => ?_, fun i => rfl⟩
  · have := trajGo_getD_no_cross start vel g 120 0 k hk ?_
    · rwa [Nat.zero_add] at this
    · intro j hj
      rw [Nat.zero_add]
      exact hno j hj
  · have := trajGo_getD_cross start vel g 120 0 k hk ?_ ?_ m hkm hm
    · rwa [Nat.zero_add] at this
    · rwa [Nat.zero_add]
    · intro j hj
      rw [Nat.zero_add]
      exact hno j hj

/-- Counterexample to the damping conjunct of claim C4 as stated: the
projectile body is created with linear damping 0.01, which is not zero. -/
theorem projectile_damping_nonzero :
    projectileLinearDamping = 1/100 ∧ projectileLinearDamping ≠ 0 := by
  norm_num [projectileLinearDamping]

/-- Witness for the amended C4: shot from (0, 1, 0) with velocity (10, 10, 0)
under the world gravity 9.82, sample 5 is the closed-form point, the path
first crosses y = 0.1 at sample 27, and the last sample 119 is clamped to the
ground-impact point. -/
theorem trajectory_sampler_spec_witness :
    (trajPoints (0, 1, 0) (10, 10, 0) worldGravity).length = 120 ∧
    (trajPoints (0, 1, 0) (10, 10, 0) worldGravity).getD 5 (0, 0, 0) =
      trajRawPoint (0, 1, 0) (10, 10, 0) worldGravity 5 ∧
    (trajPoints (0, 1, 0) (10, 10, 0) worldGravity).getD 119 (0, 0, 0) =
      ((trajRawPoint (0, 1, 0) (10, 10, 0) worldGravity 27).1, 1/10,
       (trajRawPoint (0, 1, 0) (10, 10, 0) worldGravity 27).2.2) := by
  have h := trajectory_sampler_spec (0, 1, 0) (10, 10, 0) worldGravity
  refine ⟨h.1, h.2.1 5 (by norm_num) ?_, h.2.2.1 27 (by norm_num) ?_ ?_ 119 (by norm_num) (by norm_num)⟩
  · intro j hj
    interval_cases j <;> norm_num [trajRawPoint, worldGravity]
  · norm_num [trajRawPoint, worldGravity]
  · intro j hj
    interval_cases j <;> norm_num [trajRawPoint, worldGravity]

/-! ## C8: save-system best-score and completion counter -/

/-- Claim C8: updateLevel overwrites the stored best-score fields only when
the submitted score strictly exceeds the stored best (otherwise they are all
retained), marks the level completed, increments the total-levels-completed
counter exactly when the level had never been completed before (so never
twice for the same level), and leaves every other level's record untouched. -/
theorem updateLevel_spec (d : SaveData) (n : ℤ) (score t o sh : ℚ) :
    (score > ((d.levels n).getD initLevelRec).highScore →
      (((updateLevel d n score t o sh).levels n).getD initLevelRec).highScore = score ∧
      (((updateLevel d n score t o sh).levels n).getD initLevelRec).bestTargets = t ∧
      (((updateLevel d n score t o sh).levels n).getD initLevelRec).bestObstacles = o ∧
      (((updateLevel d n score t o sh).levels n).getD initLevelRec).bestShots = JsNum.fin sh) ∧
    (¬ score > ((d.levels n).getD initLevelRec).highScore →
      (((updateLevel d n score t o sh).levels n).getD initLevelRec).highScore =
        ((d.levels n).getD initLevelRec).highScore ∧
      (((updateLevel d n score t o sh).levels n).getD initLevelRec).bestTargets =
        ((d.levels n).getD initLevelRec).bestTargets ∧
      (((updateLevel d n score t o sh).levels n).getD initLevelRec).bestObstacles =
        ((d.levels n).getD initLevelRec).bestObstacles ∧
      (((updateLevel d n score t o sh).levels n).getD initLevelRec).bestShots =
        ((d.levels n).getD initLevelRec).bestShots) ∧
    ((((updateLevel d n score t o sh).levels n).getD initLevelRec).completed = true) ∧
    ((updateLevel d n score t o sh).levelsCompleted =
      if ((d.levels n).getD initLevelRec).completed then d.levelsCompleted
      else d.levelsCompleted + 1) ∧
    (∀ m, m ≠ n → (updateLevel d n score t o sh).levels m = d.levels m) ∧
    (∀ score2 t2 o2 sh2 : ℚ,
      (updateLevel (updateLevel d n score t o sh) n score2 t2 o2 sh2).levelsCompleted =
        (updateLevel d n score t o sh).levelsCompleted) := by
  by_cases hs : score > ((d.levels n).getD initLevelRec).highScore
  · refine ⟨fun _ => ?_, fun hc => absurd hs hc, ?_, ?_,
      fun m hm => by simp [updateLevel, hm], fun s2 t2 o2 sh2 => ?_⟩ <;>
      simp [updateLevel, hs, apply_ite LevelRec.completed]
  · refine ⟨fun hc => absurd hc hs, fun _ => ?_, ?_, ?_,
      fun m hm => by simp [updateLevel, hm], fun s2 t2 o2 sh2 => ?_⟩ <;>
      simp [updateLevel, hs, apply_ite LevelRec.completed]

/-- Witness for C8: on a fresh save, submitting 100 to level 7 stores 100 and
sets the completion counter to 1; a later 90 retains 100 and the counter
stays 1; a later 150 overwrites to 150 and the counter still stays 1. -/
theorem updateLevel_spec_witness :
    (((updateLevel emptySaveData 7 100 3 1 5).levels 7).getD initLevelRec).highScore = 100 ∧
    (updateLevel emptySaveData 7 100 3 1 5).levelsCompleted = 1 ∧
    (((updateLevel (updateLevel emptySaveData 7 100 3 1 5) 7 90 4 2 6).levels 7).getD
      initLevelRec).highScore = 100 ∧
    (updateLevel (updateLevel emptySaveData 7 100 3 1 5) 7 90 4 2 6).levelsCompleted = 1 ∧
    (((updateLevel (updateLevel emptySaveData 7 100 3 1 5) 7 150 5 2 4).levels 7).getD
      initLevelRec).highScore = 150 ∧
    (updateLevel (updateLevel emptySaveData 7 100 3 1 5) 7 150 5 2 4).levelsCompleted = 1 := by
  have h0 := updateLevel_spec emptySaveData 7 100 3 1 5
  have e1 : (((updateLevel emptySaveData 7 100 3 1 5).levels 7).getD initLevelRec).highScore
      = 100 :=
    (h0.1 (by norm_num [emptySaveData, initLevelRec])).1
  have ec1 : (updateLevel emptySaveData 7 100 3 1 5).levelsCompleted = 1 := by
    rw [h0.2.2.2.1]
    norm_num [emptySaveData, initLevelRec]
  have h90 := updateLevel_spec (updateLevel emptySaveData 7 100 3 1 5) 7 90 4 2 6
  have e2 : (((updateLevel (updateLevel emptySaveData 7 100 3 1 5) 7 90 4 2 6).levels 7).getD
      initLevelRec).highScore = 100 := by
    rw [(h90.2.1 (by rw [e1]; norm_num)).1, e1]
  have ec2 : (updateLevel (updateLevel emptySaveData 7 100 3 1 5) 7 90 4 2 6).levelsCompleted
      = 1 := by
    rw [h0.2.2.2.2.2 90 4 2 6, ec1]
  have h150 := updateLevel_spec (updateLevel emptySaveData 7 100 3 1 5) 7 150 5 2 4
  have e3 : (((updateLevel (updateLevel emptySaveData 7 100 3 1 5) 7 150 5 2 4).levels 7).getD
      initLevelRec).highScore = 150 :=
    (h150.1 (by rw [e1]; norm_num)).1
  have ec3 : (updateLevel (updateLevel emptySaveData 7 100 3 1 5) 7 150 5 2 4).levelsCompleted
      = 1 := by
    rw [h0.2.2.2.2.2 150 5 2 4, ec1]
  exact ⟨e1, ec1, e2, ec2, e3, ec3⟩

/-! ## C5: level-load determinism -/

/-- The updated-state test `next() > 0.5` in its exact integer form. -/
theorem lcgOut_gt_half_iff (s1 : ℤ) : (lcgOut s1 > 1/2) ↔ (drawGtHalf s1 = true) := by
  unfold lcgOut drawGtHalf
  rw [decide_eq_true_iff]
  rw [gt_iff_lt, lt_div_iff₀ (by norm_num : (0:ℚ) < 2147483646)]
  constructor
  · intro h
    exact_mod_cast (by linarith : (1073741824:ℚ) < (s1:ℚ))
  · intro h
    have hq : (1073741824:ℚ) < (s1:ℚ) := by exact_mod_cast h
    linarith

/-- The method `pick` on the 4-element target-type table in its exact integer form. -/
theorem drawPick_targetTypes (s : ℤ) :
    drawPick s targetTypes =
      (targetTypes.getD (drawPickIdx4 (lcgNext s)) "undefined", lcgNext s) := by
  unfold drawPick drawNext drawPickIdx4
  dsimp only
  congr 2
  have hlen : ((targetTypes.length : ℕ) : ℚ) = ((4 : ℤ) : ℚ) := by norm_num [targetTypes]
  have hout : lcgOut (lcgNext s) * (targetTypes.length : ℚ) =
      ((4 * (lcgNext s - 1) : ℤ) : ℚ) / ((2147483646 : ℕ) : ℚ) := by
    unfold lcgOut
    rw [hlen]
    push_cast
    ring
  rw [hout, Rat.floor_intCast_div_natCast]
  norm_num

/-- The faithful category loop agrees with its integer twin. -/
theorem randLoopCats_eq_twin : ∀ (rem : ℕ) (s : ℤ), randLoopCats rem s = randLoopCatsZ rem s := by
  intro rem
  induction rem with
  | zero => intro s; rfl
  | succ k ih =>
    intro s
    unfold randLoopCats randLoopCatsZ drawNext
    dsimp only
    rw [drawPick_targetTypes]
    dsimp only
    rw [if_congr (lcgOut_gt_half_iff (lcgNext s)) rfl rfl, ih]

/-- The faithful per-load category function agrees with its integer twin. -/
theorem levelLoadCats_eq_twin (n : ℤ) (s : ℤ) : levelLoadCats n s = levelLoadCatsZ n s := by
  unfold levelLoadCats levelLoadCatsZ createRandomLevelCats createRandomLevelCatsZ
  simp only [randLoopCats_eq_twin]

/-- The full placement loop projects onto the category loop. -/
theorem randLoopFull_cats (baseX : ℝ) (cx : ℕ) :
    ∀ (rem i : ℕ) (s : ℤ),
      (randLoopFull baseX cx i rem s).1.map Placed.category = (randLoopCats rem s).1 ∧
      (randLoopFull baseX cx i rem s).2.1.map Placed.category = (randLoopCats rem s).2.1 ∧
      (randLoopFull baseX cx i rem s).2.2 = (randLoopCats rem s).2.2 := by
  intro rem
  induction rem with
  | zero => intro i s; exact ⟨rfl, rfl, rfl⟩
  | succ k ih =>
    intro i s
    unfold randLoopFull randLoopCats
    dsimp only
    refine ⟨?_, ?_, (ih (i + 1) _).2.2⟩
    · simp [(ih (i + 1) _).1]
    · simp [(ih (i + 1) _).2.1]

/-- The shape of `levelLoadFull` on the procedural branch. -/
theorem levelLoadFull_default (n : ℤ) (s : ℤ) (h1 : ¬ n = 1) (h2 : ¬ n = 2) (h3 : ¬ n = 3) :
    levelLoadFull n s =
      (⟨"platform", 20 + (n : ℝ) * 5, 3/20, 0⟩ ::
         (randLoopFull (20 + (n : ℝ) * 5) (levelComplexity n) 0 (levelComplexity n) s).1 ++
         [⟨"platform", 20 + (n : ℝ) * 5, 2, 0⟩],
       (randLoopFull (20 + (n : ℝ) * 5) (levelComplexity n) 0 (levelComplexity n) s).2.1 ++
         [⟨"upgraded-soldier", 20 + (n : ℝ) * 5, 3, 0⟩],
       sceneryAdvance
         ((randLoopFull (20 + (n : ℝ) * 5) (levelComplexity n) 0 (levelComplexity n) s).2.2)) := by
  unfold levelLoadFull
  rw [if_neg h1, if_neg h2, if_neg h3]

/-- One `load()` call projects onto the per-load category function. -/
theorem levelLoadFull_cats (n : ℤ) (s : ℤ) :
    (levelLoadFull n s).1.map Placed.category = (levelLoadCats n s).1 ∧
    (levelLoadFull n s).2.1.map Placed.category = (levelLoadCats n s).2.1 ∧
    (levelLoadFull n s).2.2 = (levelLoadCats n s).2.2 := by
  by_cases h1 : n = 1
  · subst h1; exact ⟨rfl, rfl, rfl⟩
  by_cases h2 : n = 2
  · subst h2; exact ⟨rfl, rfl, rfl⟩
  by_cases h3 : n = 3
  · subst h3; exact ⟨rfl, rfl, rfl⟩
  have hr := randLoopFull_cats (20 + (n : ℝ) * 5) (levelComplexity n) (levelComplexity n) 0 s
  rw [levelLoadFull_default n s h1 h2 h3]
  unfold levelLoadCats createRandomLevelCats
  rw [if_neg h1, if_neg h2, if_neg h3]
  dsimp only
  refine ⟨?_, ?_, by rw [hr.2.2]⟩
  · simp [hr.1]
  · simp [hr.2.1]

/-- The positions placed by the procedural loop do not depend on the RNG
state. -/
theorem randLoopFull_positions (baseX : ℝ) (cx : ℕ) :
    ∀ (rem i : ℕ) (s s' : ℤ),
      (randLoopFull baseX cx i rem s).1.map placedPos =
        (randLoopFull baseX cx i rem s').1.map placedPos ∧
      (randLoopFull baseX cx i rem s).2.1.map placedPos =
        (randLoopFull baseX cx i rem s').2.1.map placedPos := by
  intro rem
  induction rem with
  | zero => intro i s s'; exact ⟨rfl, rfl⟩
  | succ k ih =>
    intro i s s'
    unfold randLoopFull
    dsimp only
    obtain ⟨ihb, iht⟩ := ih (i + 1) (drawPick (drawNext s).2 targetTypes).2
      (drawPick (drawNext s').2 targetTypes).2
    exact ⟨by simp [placedPos, ihb], by simp [placedPos, iht]⟩

/-- Claim C5 (amended): for every level index the entity positions produced
by load() are independent of the RNG state (hence identical across repeated
calls), and for the hand-authored indices 1-3 the entity categories are also
identical across repeated load() calls on the same Level; for procedurally
generated indices the categories are a pure function of the RNG state at
entry — identical when the Level is freshly constructed with the same index
and seed, but not across repeated load() calls on one instance, because each
load consumes further draws of the seeded stream (see the counterexample at
index 4).  Only the seeded RNG enters the entity-placement computation. -/
theorem level_load_determinism (n : ℤ) (s s' : ℤ) :
    ((levelLoadFull n s).1.map placedPos = (levelLoadFull n s').1.map placedPos) ∧
    ((levelLoadFull n s).2.1.map placedPos = (levelLoadFull n s').2.1.map placedPos) ∧
    (n = 1 ∨ n = 2 ∨ n = 3 →
      (levelLoadFull n ((levelLoadFull n s).2.2)).1 = (levelLoadFull n s).1 ∧
      (levelLoadFull n ((levelLoadFull n s).2.2)).2.1 = (levelLoadFull n s).2.1) := by
  by_cases hn : n = 1 ∨ n = 2 ∨ n = 3
  · have hc : ∀ x y : ℤ, (levelLoadFull n x).1 = (levelLoadFull n y).1 ∧
        (levelLoadFull n x).2.1 = (levelLoadFull n y).2.1 := by
      intro x y
      unfold levelLoadFull
      rcases hn with h | h | h <;> subst h <;> exact ⟨rfl, rfl⟩
    exact ⟨by rw [(hc s s').1], by rw [(hc s s').2],
      fun _ => ⟨(hc _ s).1, (hc _ s).2⟩⟩
  · have h1 : ¬ n = 1 := fun h => hn (Or.inl h)
    have h2 : ¬ n = 2 := fun h => hn (Or.inr (Or.inl h))
    have h3 : ¬ n = 3 := fun h => hn (Or.inr (Or.inr h))
    rw [levelLoadFull_default n s h1 h2 h3, levelLoadFull_default n s' h1 h2 h3]
    obtain ⟨hp1, hp2⟩ := randLoopFull_positions (20 + (n : ℝ) * 5) (levelComplexity n)
      (levelComplexity n) 0 s s'
    exact ⟨by simp [placedPos, hp1], by simp [placedPos, hp2], fun h => absurd h hn⟩

set_option maxRecDepth 8000 in
/-- Counterexample to claim C5 as stated: on a Level constructed for index 4
(seed 4 × 12345), the building categories produced by a second load() call on
the same instance differ from those of the first call, because the first call
advanced the seeded RNG stream. -/
theorem level4_repeated_load_differs :
    (levelLoadFull 4 (levelInitSeed 4)).1.map Placed.category ≠
    (levelLoadFull 4 ((levelLoadFull 4 (levelInitSeed 4)).2.2)).1.map Placed.category := by
  have hc := levelLoadFull_cats 4 (levelInitSeed 4)
  have hc2 := levelLoadFull_cats 4 ((levelLoadFull 4 (levelInitSeed 4)).2.2)
  rw [hc.1, hc2.1, hc.2.2]
  simp only [levelLoadCats_eq_twin]
  decide

/-- Witness for the amended C5 at index 2 (hand-authored) with two distinct
RNG states. -/
theorem level_load_determinism_witness :
    ((levelLoadFull 2 (levelInitSeed 2)).1.map placedPos =
      (levelLoadFull 2 999).1.map placedPos) ∧
    ((levelLoadFull 2 ((levelLoadFull 2 (levelInitSeed 2)).2.2)).1 =
      (levelLoadFull 2 (levelInitSeed 2)).1) ∧
    ((levelLoadFull 2 ((levelLoadFull 2 (levelInitSeed 2)).2.2)).2.1 =
      (levelLoadFull 2 (levelInitSeed 2)).2.1) := by
  have h := level_load_determinism 2 (levelInitSeed 2) 999
  have h2 := h.2.2 (Or.inr (Or.inl rfl))
  exact ⟨h.1, h2.1, h2.2⟩

end GrayBalls
